import Mathlib

/-!
Verification of the session coordination and action-resolution engine of the
dnd-game repository (backend/app): the dice engine (services/dice_service.py),
the session state machine (models/game.py, api/games.py), the character skill
model (models/character.py), the pending-check store (api/websocket.py plus
core/redis_client.py) and the WebSocket connection registry and dice-roll
handler (api/websocket.py).

Randomness is modelled by an explicit sample stream `σ : Nat → Nat`: the i-th
call of `random.randint(1, sides)` during one operation returns `σ i`.
-/

namespace DndGame

/-! ## Dice engine: services/dice_service.py -/

/-- DiceResult (dice_service.py:10-19).  `ntext` is the source's
notation-string field (`notation: str`). -/
structure DiceResult where
  ntext : String
  individual_rolls : List Nat
  modifiers : List (String × Int)
  total : Int
  is_critical : Bool
  is_advantage : Bool
  is_disadvantage : Bool
deriving DecidableEq, Repr

/-- Numeric value of a list of decimal digits, as Python `int()` applied to a
digit string. -/
def digitsToNat (cs : List Char) : Nat :=
  cs.foldl (fun acc c => acc * 10 + (c.toNat - ('0').toNat)) 0

/-- Python `str.strip()`: drop leading and trailing whitespace. -/
def pyStrip (cs : List Char) : List Char :=
  ((cs.dropWhile Char.isWhitespace).reverse.dropWhile Char.isWhitespace).reverse

/-- The normalisation `notation.strip().lower().replace(" ", "")` of
parse_dice_notation (dice_service.py:123), at the character-list level:
strip, lowercase, and remove every space character. -/
def normalizeDiceText (s : String) : List Char :=
  ((pyStrip s.toList).map Char.toLower).filter (fun c => c ≠ ' ')

/-- Core of the dice regular expression
`(?P<count>\d+)?d(?P<sides>\d+)(?P<modifier>[+-]\d+)?` applied with `re.match`
(prefix matching; dice_service.py:50-53 and 134-141): an optional run of digits
for the count (defaulting to 1 when absent), a literal `d`, a mandatory run of
digits for the sides, and an optional signed run of digits for the modifier.
Trailing characters are ignored, exactly as `re.match` ignores them; a sign
without digits leaves the optional modifier group unmatched. -/
def diceRegexMatch (cs : List Char) : Option (Nat × Nat × Int) :=
  let countDigits := cs.takeWhile Char.isDigit
  let rest1 := cs.dropWhile Char.isDigit
  match rest1 with
  | 'd' :: rest2 =>
    let sidesDigits := rest2.takeWhile Char.isDigit
    if sidesDigits.isEmpty then none
    else
      let rest3 := rest2.dropWhile Char.isDigit
      let count := if countDigits.isEmpty then 1 else digitsToNat countDigits
      let sides := digitsToNat sidesDigits
      let modifier : Int :=
        match rest3 with
        | '+' :: ds =>
          let ms := ds.takeWhile Char.isDigit
          if ms.isEmpty then 0 else (digitsToNat ms : Int)
        | '-' :: ds =>
          let ms := ds.takeWhile Char.isDigit
          if ms.isEmpty then 0 else -(digitsToNat ms : Int)
        | _ => 0
      some (count, sides, modifier)
  | _ => none

/-- DiceService.parse_dice_notation (dice_service.py:116-148): normalise the
string (strip, lower, remove spaces), handle the bare `dN` shorthands for the
standard dice, then apply the regular expression.  Returns `none` where the
source raises `ValueError`. -/
def parseDiceText (s : String) : Option (Nat × Nat × Int) :=
  let t := normalizeDiceText s
  if t = ("d4").toList ∨ t = ("d6").toList ∨ t = ("d8").toList ∨ t = ("d10").toList ∨
      t = ("d12").toList ∨ t = ("d20").toList ∨ t = ("d100").toList then
    some (1, digitsToNat (t.drop 1), 0)
  else
    diceRegexMatch t

/-- One exploding-die resolution (dice_service.py:103-110): keep drawing while
the draw equals `sides`, accumulating the sum.  The source's `while True` loop
is unbounded, so the embedding carries a fuel argument; every call path
verified here has `exploding = false`, so the fuel is never consumed. -/
def explodeFrom (σ : Nat → Nat) (sides : Nat) : Nat → Nat → Nat → (Nat × Nat)
  | 0, i, acc => (acc, i)
  | fuel + 1, i, acc =>
    let extra := σ i
    if extra = sides then explodeFrom σ sides fuel (i + 1) (acc + extra)
    else (acc + extra, i + 1)

/-- Per-die loop of DiceService.roll_dice (dice_service.py:84-114), drawing
from the sample stream starting at index `i` and returning the produced rolls
together with the next unused stream index.  With advantage (or disadvantage)
and 20-sided dice each die takes the max (or min) of two consecutive draws;
otherwise a single draw, optionally exploded. -/
def rollDiceAux (σ : Nat → Nat) (sides : Nat)
    (advantage disadvantage exploding : Bool) (fuel : Nat) :
    Nat → Nat → (List Nat × Nat)
  | 0, i => ([], i)
  | count + 1, i =>
    if advantage && sides == 20 then
      let r := max (σ i) (σ (i + 1))
      let rest := rollDiceAux σ sides advantage disadvantage exploding fuel count (i + 2)
      (r :: rest.1, rest.2)
    else if disadvantage && sides == 20 then
      let r := min (σ i) (σ (i + 1))
      let rest := rollDiceAux σ sides advantage disadvantage exploding fuel count (i + 2)
      (r :: rest.1, rest.2)
    else
      let r := σ i
      if exploding && r == sides then
        let ex := explodeFrom σ sides fuel (i + 1) r
        let rest := rollDiceAux σ sides advantage disadvantage exploding fuel count ex.2
        (ex.1 :: rest.1, rest.2)
      else
        let rest := rollDiceAux σ sides advantage disadvantage exploding fuel count (i + 1)
        (r :: rest.1, rest.2)

/-- DiceService.roll_dice (dice_service.py:58-114): validates count and sides
(`ValueError` when non-positive, or when count exceeds 100), then draws each
die from the sample stream `σ` starting at index `i0`. -/
def roll_dice (σ : Nat → Nat) (i0 : Nat) (count sides : Nat)
    (advantage disadvantage exploding : Bool) (fuel : Nat) :
    Except String (List Nat × Nat) :=
  if count = 0 ∨ sides = 0 then
    Except.error ("count and sides must be positive")
  else if 100 < count then
    Except.error ("too many dice, maximum 100")
  else
    Except.ok (rollDiceAux σ sides advantage disadvantage exploding fuel count i0)

/-- DiceService.roll_from_notation (dice_service.py:150-216): parse the
notation string `s`, cancel advantage against disadvantage when both are set,
roll the dice, then assemble the named modifiers (the flat `base` modifier from
the notation followed by the caller's additional modifiers) and the total.
A single d20 rolling a natural 1 or 20 sets `is_critical`. -/
def roll_from_ntext (σ : Nat → Nat) (s : String)
    (advantage disadvantage : Bool) (additional_modifiers : List (String × Int))
    (exploding : Bool) (fuel : Nat) : Except String DiceResult :=
  match parseDiceText s with
  | none => Except.error (("bad dice string: ") ++ s)
  | some (count, sides, modifier) =>
    let adv := if advantage && disadvantage then false else advantage
    let dis := if advantage && disadvantage then false else disadvantage
    match roll_dice σ 0 count sides adv dis exploding fuel with
    | Except.error e => Except.error e
    | Except.ok rolls =>
      let mods := (if modifier ≠ 0 then [(("base" : String), modifier)] else [])
          ++ additional_modifiers
      let total_modifier := modifier + (additional_modifiers.map Prod.snd).sum
      let total : Int := ((rolls.1.map (fun v => (v : Int))).sum) + total_modifier
      let is_crit := sides == 20 && count == 1 &&
        (rolls.1.headD 0 == 20 || rolls.1.headD 0 == 1)
      Except.ok
        { ntext := s
          individual_rolls := rolls.1
          modifiers := mods
          total := total
          is_critical := is_crit
          is_advantage := adv
          is_disadvantage := dis }

example :
    roll_from_ntext (fun i => [4, 2].getD i 1) ("2d6+3") false false [] false 0
      = Except.ok
          { ntext := ("2d6+3")
            individual_rolls := [4, 2]
            modifiers := [(("base"), 3)]
            total := 9
            is_critical := false
            is_advantage := false
            is_disadvantage := false } := rfl

example :
    roll_from_ntext (fun _ => 20) ("1d20") false false [] false 0
      = Except.ok
          { ntext := ("1d20")
            individual_rolls := [20]
            modifiers := []
            total := 20
            is_critical := true
            is_advantage := false
            is_disadvantage := false } := rfl

/-! ## Generic association-list lookup, as Python dict access

Python dictionaries in the embedded code are modelled as association lists in
insertion order; `alookup` is `d.get(k)`. -/

/-- First value stored under key `k`, or `none` (Python `dict.get`). -/
def alookup {α : Type} (k : String) : List (String × α) → Option α
  | [] => none
  | (k2, v) :: rest => if k2 = k then some v else alookup k rest

/-- Python dict assignment `d[k] = v`: replace the value under an existing key,
otherwise append the binding. -/
def dictInsert {α : Type} (l : List (String × α)) (k : String) (v : α) :
    List (String × α) :=
  if l.any (fun p => p.1 = k) then l.map (fun p => if p.1 = k then (p.1, v) else p)
  else l ++ [(k, v)]

/-! ## Session state machine: models/game.py and api/games.py -/

/-- GameStatus (game.py:11-16). -/
inductive GameStatus where
  | waiting
  | active
  | paused
  | ended
deriving DecidableEq, Repr

/-- One entry of turn_info.initiative_order: a dict from which next_turn reads
`player_id` with `.get` (game.py:176), hence an optional field. -/
structure InitiativeEntry where
  player_id : Option String
deriving DecidableEq, Repr

/-- The turn_info JSON column of Game (game.py:40-46), with the fields the
embedded operations read and write. -/
structure TurnInfo where
  current_turn : Nat
  initiative_order : List InitiativeEntry
  round_number : Nat
  current_player_index : Nat
  current_player_id : Option String
deriving DecidableEq, Repr

/-- The Game row (game.py:19-66), restricted to the columns the embedded
operations touch.  In the source some JSON columns may be null and are
defaulted on read; the embedding keeps them always present. -/
structure Game where
  status : GameStatus
  max_players : Nat
  current_players : Nat
  players : List String
  characters : List String
  player_characters : List (String × String)
  turn_info : TurnInfo
deriving DecidableEq, Repr

/-- Game.next_turn (game.py:149-176): bump the raw turn counter; when the
initiative order is non-empty, step the current player index cyclically,
incrementing the round number when the new index wraps to 0, and record the
player id found at the new index. -/
def Game.next_turn_info (t : TurnInfo) : TurnInfo :=
  let t1 : TurnInfo := { t with current_turn := t.current_turn + 1 }
  if t1.initiative_order.isEmpty then t1
  else
    let len := t1.initiative_order.length
    let next_index := (t1.current_player_index + 1) % len
    let t2 := if next_index = 0 then { t1 with round_number := t1.round_number + 1 } else t1
    let t3 := { t2 with current_player_index := next_index }
    match t3.initiative_order.get? next_index with
    | some e => { t3 with current_player_id := e.player_id }
    | none => t3

/-- Game.add_player (game.py:178-211): reject when the player counter has
reached max_players, then reject when the id is already in the roster,
otherwise append the id, optionally record the character and its assignment,
and recompute current_players as the roster length.  Returns the source's
boolean and the (possibly) mutated row. -/
def Game.add_player (g : Game) (user_id : String) (character_id : Option String) :
    Bool × Game :=
  if g.max_players ≤ g.current_players then (false, g)
  else if user_id ∈ g.players then (false, g)
  else
    let players2 := g.players ++ [user_id]
    let g2 :=
      match character_id with
      | some cid =>
        { g with
          players := players2
          characters := if cid ∈ g.characters then g.characters else g.characters ++ [cid]
          player_characters := dictInsert g.player_characters user_id cid }
      | none => { g with players := players2 }
    (true, { g2 with current_players := g2.players.length })

/-- Game.can_join (game.py:255-265): the game must be waiting or active and
have a free seat. -/
def Game.can_join (g : Game) : Bool :=
  if g.status ≠ GameStatus.waiting ∧ g.status ≠ GameStatus.active then false
  else if g.max_players ≤ g.current_players then false
  else true

/-- Outcome of a game-management endpoint: success or an HTTP error with
status code and detail string. -/
inductive EndpointOutcome where
  | success
  | httpError (code : Nat) (detail : String)
deriving DecidableEq, Repr

/-- Detail string of the 400 error raised when can_join fails
(games.py:338-342). -/
def cannotJoinDetail : String := "Cannot join game: game is full or not accepting players"

/-- Detail string of the 400 error raised when add_player returns False
(games.py:365-369). -/
def alreadyInGameDetail : String := "Already in game or game is full"

/-- join_game (games.py:318-379) from the point where the game row has been
loaded and the campaign-membership authorisation has passed: first the
can_join guard (400 with cannotJoinDetail), then add_player (400 with
alreadyInGameDetail on False, success and commit on True). -/
def joinGameCore (g : Game) (user_id : String) (character_id : Option String) :
    EndpointOutcome × Game :=
  if g.can_join then
    let res := g.add_player user_id character_id
    if res.1 then (EndpointOutcome.success, res.2)
    else (EndpointOutcome.httpError 400 alreadyInGameDetail, res.2)
  else (EndpointOutcome.httpError 400 cannotJoinDetail, g)

/-- Names of the methods defined on the Game model (game.py:19-304, including
property accessors) together with those inherited from BaseModel
(base.py:10-52).  There is no start_game, pause_game or end_game among them. -/
def gameModelMethodNames : List String :=
  [("current_turn"), ("current_player_index"), ("round_number"), ("initiative_order"),
   ("get_current_player"), ("set_current_player"), ("next_turn"), ("add_player"),
   ("remove_player"), ("get_player_character_id"), ("is_player_in_game"), ("can_join"),
   ("get_game_info"), ("get_detailed_game_info"), ("to_dict"), ("update_from_dict")]

/-- Python attribute lookup of a `start_game` method on a Game instance:
game.py defines no method of that name (gameModelMethodNames), so the lookup
fails — the interpreter raises AttributeError at the call site
games.py:452. -/
def gameStartGameMethod : Option (Game → Bool × Game) := none

/-- Detail string of the 500 error raised by the start endpoint's blanket
`except Exception` handler (games.py:464-470). -/
def startFailedDetail : String := "Failed to start game"

/-- Detail string of the 400 error for a rejected start (games.py:456-460). -/
def cannotStartDetail : String := "Cannot start game: no players or game not in waiting status"

/-- start_game endpoint (games.py:423-470) from the point where the game row
has been loaded and the campaign-creator authorisation has passed.  The source
calls `game.start_game()`; because the Game model defines no such method
(gameStartGameMethod = none), the call raises AttributeError, which the
`except Exception` handler converts into a rollback (the row is left
unchanged) and an HTTP 500 with startFailedDetail. -/
def startGameEndpoint (g : Game) : EndpointOutcome × Game :=
  match gameStartGameMethod with
  | some f =>
    let res := f g
    if res.1 then (EndpointOutcome.success, res.2)
    else (EndpointOutcome.httpError 400 cannotStartDetail, res.2)
  | none => (EndpointOutcome.httpError 500 startFailedDetail, g)

/-! ## Character snapshot: models/character.py -/

/-- A skill entry of Character.skills (character.py:154-156): the dict read
with `.get("proficient", False)` and `.get("expert", False)`. -/
structure SkillInfo where
  proficient : Bool
  expert : Bool
deriving DecidableEq, Repr

/-- The Character row (character.py), restricted to the fields
get_ability_modifier and get_skill_bonus read. -/
structure Character where
  strength : Int
  dexterity : Int
  constitution : Int
  intelligence : Int
  wisdom : Int
  charisma : Int
  proficiency_bonus : Int
  skills : List (String × SkillInfo)
deriving DecidableEq, Repr

/-- Character.get_ability_modifier (character.py:103-107): Python floor
division `(score - 10) // 2`, i.e. Int.fdiv.  (The None-defaulting of a
missing score does not arise: every embedded score is present.) -/
def Character.get_ability_modifier (_c : Character) (ability_score : Int) : Int :=
  (ability_score - 10).fdiv 2

/-- The skill-to-ability mapping of Character.get_skill_bonus
(character.py:130-149). -/
def skillAbilities : List (String × String) :=
  [(("acrobatics"), ("dexterity")), (("animal_handling"), ("wisdom")),
   (("arcana"), ("intelligence")), (("athletics"), ("strength")),
   (("deception"), ("charisma")), (("history"), ("intelligence")),
   (("insight"), ("wisdom")), (("intimidation"), ("charisma")),
   (("investigation"), ("intelligence")), (("medicine"), ("wisdom")),
   (("nature"), ("intelligence")), (("perception"), ("wisdom")),
   (("performance"), ("charisma")), (("persuasion"), ("charisma")),
   (("religion"), ("intelligence")), (("sleight_of_hand"), ("dexterity")),
   (("stealth"), ("dexterity")), (("survival"), ("wisdom"))]

/-- `getattr(self, ability)` for the six ability columns (the only names
skillAbilities produces). -/
def Character.abilityScore (c : Character) (ability : String) : Int :=
  if ability = ("strength") then c.strength
  else if ability = ("dexterity") then c.dexterity
  else if ability = ("constitution") then c.constitution
  else if ability = ("intelligence") then c.intelligence
  else if ability = ("wisdom") then c.wisdom
  else if ability = ("charisma") then c.charisma
  else 0

/-- Character.get_skill_bonus (character.py:127-164): ability modifier of the
skill's governing ability, plus the proficiency bonus when the skill is marked
proficient, doubled when marked expert. -/
def Character.get_skill_bonus (c : Character) (skill : String) : Int :=
  let ability := (alookup skill skillAbilities).getD ("strength")
  let base_modifier := c.get_ability_modifier (c.abilityScore ability)
  let skill_data := (alookup skill c.skills).getD { proficient := false, expert := false }
  let proficiency : Int :=
    if skill_data.expert then c.proficiency_bonus * 2
    else if skill_data.proficient then c.proficiency_bonus
    else 0
  base_modifier + proficiency

/-! ## Action pipeline, check-required branch: api/websocket.py -/

/-- The hardcoded modifier table of get_skill_modifier (websocket.py:578-606);
keys are the Russian ability and skill names the dice analysis produces. -/
def base_modifiers : List (String × Int) :=
  [(("сила"), 2), (("ловкость"), 3), (("телосложение"), 1), (("интеллект"), 1),
   (("мудрость"), 2), (("харизма"), 0),
   (("атлетика"), 4), (("акробатика"), 3), (("ловкость_рук"), 3), (("скрытность"), 5),
   (("магия"), 3), (("история"), 1), (("расследование"), 3), (("природа"), 1),
   (("религия"), 1), (("обращение_с_животными"), 2), (("проницательность"), 4),
   (("медицина"), 2), (("восприятие"), 4), (("выживание"), 2), (("обман"), 0),
   (("запугивание"), 0), (("выступление"), 0), (("убеждение"), 2)]

/-- Python `str.lower()` at the character level.  Lean's Char.toLower only
lowercases ASCII; the embedded lookup keys are already lowercase, so the two
agree on every string this pipeline produces. -/
def pyLower (s : String) : String :=
  String.mk (s.toList.map Char.toLower)

/-- get_skill_modifier (websocket.py:573-608): look the named ability or skill
up in the hardcoded base_modifiers table, defaulting to 0.  The player name is
accepted and ignored (the character is never consulted; the source marks this
with a TODO). -/
def get_skill_modifier (ability_or_skill : String) (_player_name : String) : Int :=
  (alookup (pyLower ability_or_skill) base_modifiers).getD 0

/-- The dice-analysis dict the oracle returns to
handle_ai_response_with_dice_check and request_dice_roll reads
(websocket.py:457-460), with the defaulted fields resolved. -/
structure DiceAnalysis where
  roll_type : String
  ability_or_skill : String
  suggested_dc : Int
  advantage_disadvantage : String
deriving DecidableEq, Repr

/-- The check_data dict stored as the pending check (websocket.py:530-541),
one named field per key.  `dice_ntext` is the source's dice_notation key. -/
structure PendingCheck where
  roll_type : String
  ability_or_skill : String
  dc : Int
  advantage : Bool
  disadvantage : Bool
  original_action : String
  dice_ntext : String
  dice_instruction : String
  modifier : Int
  skill_display : String
deriving DecidableEq, Repr

/-- The Russian display-name table of request_dice_roll
(websocket.py:466-492). -/
def skill_names : List (String × String) :=
  [(("ловкость"), ("Ловкость")), (("сила"), ("Сила")), (("телосложение"), ("Телосложение")),
   (("интеллект"), ("Интеллект")), (("мудрость"), ("Мудрость")), (("харизма"), ("Харизма")),
   (("скрытность"), ("Скрытность")), (("восприятие"), ("Восприятие")),
   (("атлетика"), ("Атлетика")), (("убеждение"), ("Убеждение")), (("обман"), ("Обман")),
   (("запугивание"), ("Запугивание")), (("проницательность"), ("Проницательность")),
   (("расследование"), ("Расследование")), (("медицина"), ("Медицина")),
   (("природа"), ("Природа")), (("религия"), ("Религия")), (("магия"), ("Магия")),
   (("история"), ("История")), (("выживание"), ("Выживание")),
   (("обращение_с_животными"), ("Обращение с животными")),
   (("акробатика"), ("Акробатика")), (("ловкость_рук"), ("Ловкость рук")),
   (("взлом"), ("Взлом")), (("выступление"), ("Выступление"))]

/-- Python `str.title()` restricted to the single-word lowercase names this
pipeline produces: capitalise the first character (ASCII, as pyLower). -/
def pyTitle (s : String) : String :=
  match s.toList with
  | [] => s
  | c :: rest => String.mk (c.toUpper :: rest)

/-- The check_data record built and stored by request_dice_roll
(websocket.py:454-565): the advantage and disadvantage flags decoded from the
analysis, the dc, the display name, the fixed `1d20` dice instruction and the
modifier from the hardcoded table.  The broadcast roll_request message carries
the same fields. -/
def requestDiceRollCheck (da : DiceAnalysis) (player_name : String)
    (original_action : String) : PendingCheck :=
  let advantage := da.advantage_disadvantage = ("преимущество")
  let disadvantage := da.advantage_disadvantage = ("помеха")
  let skill_display := (alookup (pyLower da.ability_or_skill) skill_names).getD
    (pyTitle da.ability_or_skill)
  let modifier := get_skill_modifier da.ability_or_skill player_name
  let dice_instruction :=
    if advantage then ("2d20 и возьмите лучший результат")
    else if disadvantage then ("2d20 и возьмите худший результат")
    else ("d20")
  { roll_type := da.roll_type
    ability_or_skill := da.ability_or_skill
    dc := da.suggested_dc
    advantage := advantage
    disadvantage := disadvantage
    original_action := original_action
    dice_ntext := ("1d20")
    dice_instruction := dice_instruction
    modifier := modifier
    skill_display := skill_display }

/-! ## Pending-check store: api/websocket.py:828-874 over core/redis_client.py -/

/-- The value store_pending_roll_check intends to write: the check_data dict
extended with original_action and a timestamp (websocket.py:832-836). -/
structure StoredCheck where
  check : PendingCheck
  timestamp : String
deriving DecidableEq, Repr

/-- One Redis entry: a value and the absolute expiry time set by SETEX
(`expiresAt = some t` means the key vanishes once the clock reaches `t`). -/
structure RedisEntry where
  value : StoredCheck
  expiresAt : Option Nat
deriving DecidableEq, Repr

/-- The Redis keyspace, keys in insertion order.  `now` arguments below are
the clock in seconds. -/
def RedisState : Type := List (String × RedisEntry)

/-- RedisClient.set with a ttl (redis_client.py:59-72, SETEX): overwrite the
key with the value, expiring `ttl` seconds from now. -/
def redisSet (st : RedisState) (now : Nat) (key : String) (v : StoredCheck)
    (ttl : Option Nat) : RedisState :=
  (st.filter (fun p => p.1 ≠ key)) ++
    [(key, { value := v, expiresAt := ttl.map (fun t => now + t) })]

/-- RedisClient.get (redis_client.py:74-88): the value under the key, absent
when the key was never set or its expiry has been reached. -/
def redisGet (st : RedisState) (now : Nat) (key : String) : Option StoredCheck :=
  match alookup key st with
  | none => none
  | some e =>
    match e.expiresAt with
    | none => some e.value
    | some t => if now < t then some e.value else none

/-- RedisClient.delete (redis_client.py:90-97): remove the key, reporting
whether a (live) key was removed. -/
def redisDelete (st : RedisState) (now : Nat) (key : String) : Bool × RedisState :=
  ((redisGet st now key).isSome, st.filter (fun p => p.1 ≠ key))

/-- Names of the methods RedisClient defines (redis_client.py:12-282).
Neither `set_with_expiry` nor `get_json` is among them. -/
def redisClientMethodNames : List String :=
  [("connect"), ("disconnect"), ("health_check"), ("set"), ("get"), ("delete"),
   ("exists"), ("expire"), ("lpush"), ("rpush"), ("lrange"), ("ltrim"), ("hset"),
   ("hget"), ("hgetall"), ("hdel"), ("set_game_state"), ("get_game_state"),
   ("add_game_message"), ("get_game_messages"), ("set_user_session"),
   ("get_user_session"), ("delete_user_session"), ("cache_ai_context"),
   ("get_ai_context"), ("set_active_players"), ("get_active_players"),
   ("add_active_player"), ("remove_active_player")]

/-- Python attribute lookup of `set_with_expiry` on the RedisClient instance:
redis_client.py defines no method of that name (redisClientMethodNames), so
the lookup fails — the interpreter raises AttributeError at the call site
websocket.py:838. -/
def redisSetWithExpiryMethod :
    Option (RedisState → Nat → String → StoredCheck → Nat → Bool × RedisState) := none

/-- Python attribute lookup of `get_json` on the RedisClient instance:
redis_client.py defines no method of that name (redisClientMethodNames), so
the lookup fails — the interpreter raises AttributeError at the call site
websocket.py:854. -/
def redisGetJsonMethod : Option (RedisState → Nat → String → Option StoredCheck) := none

/-- The Redis key pending_roll:<game id>:<player name> (websocket.py:831). -/
def pendingRollKey (game_id player_name : String) : String :=
  ("pending_roll:") ++ game_id ++ (":") ++ player_name

/-- store_pending_roll_check (websocket.py:828-846): build the stored record
and call redis_client.set_with_expiry(key, data, 300).  That method does not
exist (redisSetWithExpiryMethod = none), so the call raises AttributeError,
the surrounding `except Exception` returns False, and the keyspace is left
unchanged. -/
def storePendingRollCheck (st : RedisState) (now : Nat)
    (game_id player_name : String) (check : PendingCheck) (timestamp : String) :
    Bool × RedisState :=
  let key := pendingRollKey game_id player_name
  match redisSetWithExpiryMethod with
  | some f => f st now key { check := check, timestamp := timestamp } 300
  | none => (false, st)

/-- get_pending_roll_check (websocket.py:849-859): call
redis_client.get_json(key).  That method does not exist
(redisGetJsonMethod = none), so the call raises AttributeError and the
surrounding `except Exception` returns None. -/
def getPendingRollCheck (st : RedisState) (now : Nat)
    (game_id player_name : String) : Option StoredCheck :=
  match redisGetJsonMethod with
  | some f => f st now (pendingRollKey game_id player_name)
  | none => none

/-- clear_pending_roll_check (websocket.py:862-874): redis_client.delete on
the pending key (this method does exist). -/
def clearPendingRollCheck (st : RedisState) (now : Nat)
    (game_id player_name : String) : Bool × RedisState :=
  redisDelete st now (pendingRollKey game_id player_name)

/-! ## Dice-roll handler: api/websocket.py:895-964 and 701-776

websocket.py defines handle_dice_roll twice (lines 646 and 895); the later
definition shadows the earlier one and is the one embedded here.  The handler
is embedded from the point after the Redis read
`get_pending_roll_check(game_id, user.username)`: the `pending` parameter is
the value that read returned (the read itself is getPendingRollCheck above).
The oracle narration (ai_service.generate_dice_result_response) contributes
only the free-text message of the broadcast and never raises
(ai_service.py:698-799); its text is not modelled. -/

/-- Messages the handler sends, with their numeric payload fields. -/
inductive OutMsg where
  | diceRollMsg (ntext : String) (result : DiceResult)
      (player_id player_name purpose : String) (is_skill_check : Bool)
  | diceCheckResultMsg (base_roll modifier final_total dc : Int) (success : Bool)
      (player_name skill_display original_action : String)
  | errorMsg (detail : String)
deriving DecidableEq, Repr

/-- What the handler produced: messages broadcast to the whole game, messages
sent only to the submitting socket, and whether clear_pending_roll_check was
invoked. -/
structure HandlerOutput where
  broadcasts : List OutMsg
  to_sender : List OutMsg
  cleared : Bool
deriving DecidableEq, Repr

/-- process_dice_check_result (websocket.py:701-776): base_roll is the
broadcast roll's total, the stored modifier is added, success is
final_total ≥ dc, and a dice_check_result carrying these fields is
broadcast. -/
def process_dice_check_result (player_name : String) (roll_total : Int)
    (pending : PendingCheck) : OutMsg :=
  let base_roll := roll_total
  let final_total := base_roll + pending.modifier
  let success := decide (pending.dc ≤ final_total)
  OutMsg.diceCheckResultMsg base_roll pending.modifier final_total pending.dc success
    player_name pending.skill_display pending.original_action

/-- handle_dice_roll (websocket.py:895-964): an empty notation is ignored;
with a pending check and notation `1d20` the die is rolled as a plain 1d20
(default flags — no advantage or disadvantage is ever passed), otherwise the
submitted notation is rolled as is; the roll is broadcast as a dice_roll
(marked as a skill check when a pending check exists); then, when a pending
check exists, process_dice_check_result broadcasts the resolution and the
pending check is cleared.  A roll error is reported only to the sender. -/
def handleDiceRoll (σ : Nat → Nat) (pending : Option PendingCheck)
    (user_id user_name ntext purpose : String) : HandlerOutput :=
  let n := String.mk (pyStrip ntext.toList)
  if n = ("") then { broadcasts := [], to_sender := [], cleared := false }
  else
    let rollRes :=
      match pending with
      | some _ =>
        if n = ("1d20") then roll_from_ntext σ ("1d20") false false [] false 0
        else roll_from_ntext σ n false false [] false 0
      | none => roll_from_ntext σ n false false [] false 0
    match rollRes with
    | Except.error e =>
      { broadcasts := []
        to_sender := [OutMsg.errorMsg (("Failed to roll dice: ") ++ e)]
        cleared := false }
    | Except.ok r =>
      let result := { r with ntext := n }
      match pending with
      | some c =>
        { broadcasts :=
            [OutMsg.diceRollMsg n result user_id user_name
              (("Проверка ") ++ c.skill_display) true,
             process_dice_check_result user_name result.total c]
          to_sender := []
          cleared := true }
      | none =>
        { broadcasts := [OutMsg.diceRollMsg n result user_id user_name purpose false]
          to_sender := []
          cleared := false }

/-! ## Connection registry: api/websocket.py:26-112 -/

/-- A live WebSocket transport handle.  `alive` records whether a
`send_text` on the handle succeeds; a dead handle makes `send_text` raise,
which the registry converts into a disconnect. -/
structure WSHandle where
  alive : Bool
deriving DecidableEq, Repr

/-- ConnectionManager (websocket.py:26-33): per game the dict of connected
users' handles, and the reverse map from user to game. -/
structure ConnectionManager where
  active_connections : List (String × List (String × WSHandle))
  user_games : List (String × String)
deriving DecidableEq, Repr

/-- The skip test of broadcast_to_game (websocket.py:92):
`exclude_user and user_id == exclude_user` — a falsy (absent or empty)
exclude_user skips nobody. -/
def exclSkip (exclude_user : Option String) (uid : String) : Bool :=
  match exclude_user with
  | some e => e ≠ ("") && uid = e
  | none => false

/-- ConnectionManager.disconnect (websocket.py:53-73): look up the user's
game; pop the user from that game's bucket, dropping the bucket when it
becomes empty; remove the user from user_games.  (The Redis
remove_active_player side call is external I/O and not part of the
registry.) -/
def ConnectionManager.disconnect (m : ConnectionManager) (user_id : String) :
    ConnectionManager :=
  match alookup user_id m.user_games with
  | none => m
  | some game_id =>
    let ac :=
      match alookup game_id m.active_connections with
      | none => m.active_connections
      | some bucket =>
        let bucket2 := bucket.filter (fun p => p.1 ≠ user_id)
        if bucket2.isEmpty then m.active_connections.filter (fun p => p.1 ≠ game_id)
        else m.active_connections.map (fun p => if p.1 = game_id then (p.1, bucket2) else p)
    { active_connections := ac
      user_games := m.user_games.filter (fun p => p.1 ≠ user_id) }

/-- The send loop of broadcast_to_game (websocket.py:91-98) over one game's
bucket: skip the excluded user, record a delivery for each live handle and a
failed send for each dead one, in bucket order.  Returns
(delivered user ids, disconnected_users). -/
def broadcastScan (exclude_user : Option String) :
    List (String × WSHandle) → List String × List String
  | [] => ([], [])
  | (uid, h) :: rest =>
    let r := broadcastScan exclude_user rest
    if exclSkip exclude_user uid then r
    else if h.alive then (uid :: r.1, r.2)
    else (r.1, uid :: r.2)

/-- ConnectionManager.broadcast_to_game (websocket.py:86-102): nothing happens
for an unknown game; otherwise run the send loop over the bucket, then
disconnect every user whose send failed.  Returns the delivered user ids and
the updated registry. -/
def ConnectionManager.broadcast_to_game (m : ConnectionManager) (game_id : String)
    (exclude_user : Option String) : List String × ConnectionManager :=
  match alookup game_id m.active_connections with
  | none => ([], m)
  | some bucket =>
    let scan := broadcastScan exclude_user bucket
    (scan.1, scan.2.foldl ConnectionManager.disconnect m)

/-! ## Concrete instances used by witnesses and counterexamples -/

/-- A turn_info in its initial state (game.py:40-46). -/
def initialTurnInfo : TurnInfo :=
  { current_turn := 0
    initiative_order := []
    round_number := 1
    current_player_index := 0
    current_player_id := none }

/-- A waiting two-seat game whose roster is full: alice and bob. -/
def fullGame : Game :=
  { status := GameStatus.waiting
    max_players := 2
    current_players := 2
    players := [("alice"), ("bob")]
    characters := []
    player_characters := []
    turn_info := initialTurnInfo }

/-- A waiting game with one player and free seats — the state from which the
spec says the start operation must succeed. -/
def waitingGame1 : Game :=
  { status := GameStatus.waiting
    max_players := 6
    current_players := 1
    players := [("p1")]
    characters := []
    player_characters := []
    turn_info := initialTurnInfo }

/-- A character snapshot with every ability score 10 (modifier 0),
proficiency bonus 2, and no skill proficiencies. -/
def plainCharacter : Character :=
  { strength := 10, dexterity := 10, constitution := 10, intelligence := 10
    wisdom := 10, charisma := 10, proficiency_bonus := 2, skills := [] }

/-- A dice analysis asking for a plain stealth check against DC 15. -/
def stealthAnalysis : DiceAnalysis :=
  { roll_type := ("проверка_навыка")
    ability_or_skill := ("скрытность")
    suggested_dc := 15
    advantage_disadvantage := ("обычно") }

/-- The pending check stored for the stealth analysis for player Lyra. -/
def lyraStealthCheck : PendingCheck :=
  requestDiceRollCheck stealthAnalysis ("Lyra") ("sneak past the guard")

/-- A turn_info with a two-entry initiative order, cursor at index 0. -/
def twoPlayerTurnInfo : TurnInfo :=
  { current_turn := 0
    initiative_order := [{ player_id := some ("p1") }, { player_id := some ("p2") }]
    round_number := 1
    current_player_index := 0
    current_player_id := some ("p1") }

/-- A game bucket with three connections: alice and carol live, bob dead. -/
def threeBucket : List (String × WSHandle) :=
  [(("alice"), { alive := true }), (("bob"), { alive := false }),
   (("carol"), { alive := true })]

/-- A registry with one game `g1` holding threeBucket and a consistent
reverse map. -/
def threeConnManager : ConnectionManager :=
  { active_connections := [(("g1"), threeBucket)]
    user_games := [(("alice"), ("g1")), (("bob"), ("g1")), (("carol"), ("g1"))] }

/-- The dice result of a plain 1d20 whose single draw is 12. -/
def rollTwelve : DiceResult :=
  { ntext := ("1d20")
    individual_rolls := [12]
    modifiers := []
    total := 12
    is_critical := false
    is_advantage := false
    is_disadvantage := false }

/-! ## Theorems -/

/-- C1: the claimed put/get round trip of the Pending-Check Store never holds
on this code: for every keyspace, clock, session, actor and check record,
store_pending_roll_check reports failure and leaves the keyspace unchanged
(its redis_client.set_with_expiry call raises AttributeError, swallowed by
the blanket except), and any get_pending_roll_check — in particular an
immediate one for the same key — returns absent (its redis_client.get_json
call fails the same way). -/
theorem pending_store_put_get_broken (st : RedisState) (now now2 : Nat)
    (gid player gid2 player2 : String) (check : PendingCheck) (ts : String) :
    (storePendingRollCheck st now gid player check ts).1 = false ∧
    (storePendingRollCheck st now gid player check ts).2 = st ∧
    getPendingRollCheck (storePendingRollCheck st now gid player check ts).2
      now2 gid2 player2 = none := by
  exact ⟨rfl, rfl, rfl⟩

/-- C4: the start endpoint never succeeds — the Game model defines no
start_game method, so for every game row, including waitingGame1 (a waiting
game with a non-empty roster, where the claim requires success), the endpoint
returns HTTP 500 with startFailedDetail and leaves the row unchanged. -/
theorem start_game_always_500 :
    gameModelMethodNames.contains ("start_game") = false ∧
    startGameEndpoint waitingGame1
      = (EndpointOutcome.httpError 500 startFailedDetail, waitingGame1) ∧
    ∀ g : Game, startGameEndpoint g
      = (EndpointOutcome.httpError 500 startFailedDetail, g) := by
  exact ⟨by decide, rfl, fun g => rfl⟩

/-- C3 counterexample: in the full waiting game already containing alice, a
second join for alice fails with the capacity/status error from can_join, not
with the already-joined error the claim requires. -/
theorem join_full_duplicate_counterexample :
    (joinGameCore fullGame ("alice") none).1
      = EndpointOutcome.httpError 400 cannotJoinDetail ∧
    (joinGameCore fullGame ("alice") none).1
      ≠ EndpointOutcome.httpError 400 alreadyInGameDetail := by
  exact ⟨rfl, by decide⟩

/-- C3 amended: join_game resolves its guards in this order: first the
can_join check — an unjoinable status or a full roster yields the
capacity/status error, even when the id is already present — then the
duplicate-membership check, then success.  AlreadyJoined is reported only
below capacity in a joinable status. -/
theorem join_checks_capacity_before_membership (g : Game) (uid : String)
    (cid : Option String) :
    (joinGameCore g uid cid).1 =
      (if (g.status ≠ GameStatus.waiting ∧ g.status ≠ GameStatus.active) ∨
          g.max_players ≤ g.current_players then
        EndpointOutcome.httpError 400 cannotJoinDetail
      else if uid ∈ g.players then EndpointOutcome.httpError 400 alreadyInGameDetail
      else EndpointOutcome.success) := by
  simp only [joinGameCore, Game.can_join, Game.add_player]
  split_ifs <;> simp_all <;>
    rcases ‹(¬g.status = GameStatus.waiting ∧ ¬g.status = GameStatus.active) ∨
      g.max_players ≤ g.current_players› with h | h <;>
    simp_all <;> omega

/-- C5 counterexample: for the stealth analysis the stored modifier is the
hardcoded table value 5, while the snapshot formula of
Character.get_skill_bonus for an all-10s, non-proficient character gives 0. -/
theorem pending_modifier_counterexample :
    (requestDiceRollCheck stealthAnalysis ("Lyra") ("sneak past the guard")).modifier = 5 ∧
    plainCharacter.get_skill_bonus ("stealth") = 0 ∧
    (requestDiceRollCheck stealthAnalysis ("Lyra") ("sneak past the guard")).modifier
      ≠ plainCharacter.get_skill_bonus ("stealth") := by
  exact ⟨by decide, by decide, by decide⟩

/-- C5 amended: the modifier stored in the PendingCheck is read from the
hardcoded base_modifiers table keyed by the lowercased ability/skill name of
the analysis (default 0); it does not depend on the acting player or on any
character snapshot — the (score − 10) div 2 + proficiency formula lives in
Character.get_skill_bonus, which this branch never consults. -/
theorem pending_modifier_from_table (da : DiceAnalysis) (p1 p2 a1 a2 : String) :
    (requestDiceRollCheck da p1 a1).modifier
      = (alookup (pyLower da.ability_or_skill) base_modifiers).getD 0 ∧
    (requestDiceRollCheck da p1 a1).modifier
      = (requestDiceRollCheck da p2 a2).modifier := by
  exact ⟨rfl, rfl⟩

/-- Helper: without advantage, disadvantage and exploding, the per-die loop
draws one stream sample per die, in order. -/
theorem rollDiceAux_plain (σ : Nat → Nat) (sides fuel : Nat) :
    ∀ count i, rollDiceAux σ sides false false false fuel count i
      = ((List.range count).map (fun j => σ (i + j)), i + count) := by
  intro count
  induction count with
  | zero => intro i; simp [rollDiceAux]
  | succ c ih =>
    intro i
    have hstep : rollDiceAux σ sides false false false fuel (c + 1) i
        = (σ i :: (rollDiceAux σ sides false false false fuel c (i + 1)).1,
           (rollDiceAux σ sides false false false fuel c (i + 1)).2) := rfl
    rw [hstep, ih (i + 1)]
    simp only [Prod.mk.injEq]
    constructor
    · rw [List.range_succ_eq_map, List.map_cons, List.map_map]
      have h2 : ((fun j => σ (i + j)) ∘ Nat.succ) = (fun j => σ (i + 1 + j)) := by
        funext j
        simp only [Function.comp_apply]
        congr 1
        omega
      rw [h2]
      simp
    · omega

/-- C6: for every notation string the parser reads as N dice of M sides with
flat modifier k, with 1 ≤ N ≤ 100 and M ≥ 1, and every sample stream within
[1, M], roll_from_ntext succeeds with exactly N individual results, each in
[1, M], and a total equal to the sum of the individual results plus k plus
the sum of the extra named modifiers. -/
theorem roll_ntext_count_bounds_total (σ : Nat → Nat) (s : String) (N M : Nat)
    (k : Int) (extra : List (String × Int))
    (hparse : parseDiceText s = some (N, M, k))
    (hN1 : 1 ≤ N) (hN2 : N ≤ 100) (hM : 1 ≤ M)
    (hσ : ∀ i, 1 ≤ σ i ∧ σ i ≤ M) :
    ∃ r, roll_from_ntext σ s false false extra false 0 = Except.ok r ∧
      r.individual_rolls.length = N ∧
      (∀ x ∈ r.individual_rolls, 1 ≤ x ∧ x ≤ M) ∧
      r.total = (r.individual_rolls.map (fun v => (v : Int))).sum + k
        + (extra.map Prod.snd).sum := by
  have hroll : roll_dice σ 0 N M false false false 0
      = Except.ok ((List.range N).map (fun j => σ (0 + j)), 0 + N) := by
    unfold roll_dice
    rw [if_neg (by omega : ¬(N = 0 ∨ M = 0)), if_neg (by omega : ¬(100 < N)),
      rollDiceAux_plain]
  unfold roll_from_ntext
  rw [hparse]
  simp only [Bool.false_and, Bool.and_self, if_false, Bool.false_eq_true]
  rw [hroll]
  refine ⟨_, rfl, ?_, ?_, ?_⟩
  · simp
  · intro x hx
    simp only [List.mem_map, List.mem_range] at hx
    obtain ⟨j, _, rfl⟩ := hx
    exact hσ _
  · simp only []
    ring

/-- C7: on a single d20 the advantage flag yields the maximum of the next two
stream draws and the disadvantage flag the minimum — each within [1, 20] when
the draws are — and invoking the roll with both flags set behaves exactly as
invoking it with neither, for every notation string, modifier list, exploding
flag and fuel. -/
theorem advantage_disadvantage_roll (σ : Nat → Nat) (extra : List (String × Int))
    (hσ : ∀ i, 1 ≤ σ i ∧ σ i ≤ 20) :
    (∃ r, roll_from_ntext σ ("1d20") true false extra false 0 = Except.ok r ∧
      r.individual_rolls = [max (σ 0) (σ 1)] ∧
      1 ≤ max (σ 0) (σ 1) ∧ max (σ 0) (σ 1) ≤ 20) ∧
    (∃ r, roll_from_ntext σ ("1d20") false true extra false 0 = Except.ok r ∧
      r.individual_rolls = [min (σ 0) (σ 1)] ∧
      1 ≤ min (σ 0) (σ 1) ∧ min (σ 0) (σ 1) ≤ 20) ∧
    ∀ (s : String) (extra2 : List (String × Int)) (ex : Bool) (fuel : Nat),
      roll_from_ntext σ s true true extra2 ex fuel
        = roll_from_ntext σ s false false extra2 ex fuel := by
  refine ⟨⟨_, rfl, rfl, ?_, ?_⟩, ⟨_, rfl, rfl, ?_, ?_⟩, ?_⟩
  · exact le_trans (hσ 0).1 (le_max_left _ _)
  · exact max_le (hσ 0).2 (hσ 1).2
  · exact le_min (hσ 0).1 (hσ 1).1
  · exact le_trans (min_le_left _ _) (hσ 0).2
  · intro s extra2 ex fuel
    unfold roll_from_ntext
    cases parseDiceText s <;> simp

/-- Witness for C6: the notation 3d6+2 with a constant stream of 2s and one
extra named modifier. -/
theorem roll_ntext_count_bounds_total_witness :
    ∃ r, roll_from_ntext (fun _ => 2) ("3d6+2") false false [(("ability"), 1)] false 0
        = Except.ok r ∧
      r.individual_rolls.length = 3 ∧
      (∀ x ∈ r.individual_rolls, 1 ≤ x ∧ x ≤ 6) ∧
      r.total = (r.individual_rolls.map (fun v => (v : Int))).sum + 2
        + ([(("ability"), 1)].map Prod.snd).sum :=
  roll_ntext_count_bounds_total (fun _ => 2) ("3d6+2") 3 6 2 [(("ability"), 1)]
    (by decide) (by decide) (by decide) (by decide) (fun _ => by norm_num)

/-- Witness for C7: a stream whose first two draws are 7 and 15. -/
theorem advantage_disadvantage_roll_witness :
    (∃ r, roll_from_ntext (fun i => if i = 0 then 7 else 15) ("1d20") true false [] false 0
        = Except.ok r ∧
      r.individual_rolls = [max 7 15] ∧ 1 ≤ max 7 15 ∧ max 7 15 ≤ 20) ∧
    (∃ r, roll_from_ntext (fun i => if i = 0 then 7 else 15) ("1d20") false true [] false 0
        = Except.ok r ∧
      r.individual_rolls = [min 7 15] ∧ 1 ≤ min 7 15 ∧ min 7 15 ≤ 20) ∧
    ∀ (s : String) (extra2 : List (String × Int)) (ex : Bool) (fuel : Nat),
      roll_from_ntext (fun i => if i = 0 then 7 else 15) s true true extra2 ex fuel
        = roll_from_ntext (fun i => if i = 0 then 7 else 15) s false false extra2 ex fuel :=
  advantage_disadvantage_roll (fun i => if i = 0 then 7 else 15) []
    (fun i => by by_cases h : i = 0 <;> simp [h])

/-- C8: over a non-empty initiative order of length N with the cursor at
index 0, the k-th of N successive next_turn calls leaves the cursor at k mod N
and the round number incremented exactly on the final, wrapping call: after k
calls the round number is the original plus one exactly when k = N, and the
initiative order itself never changes. -/
theorem advance_turn_wraps_once (t : TurnInfo) (N : Nat)
    (hlen : t.initiative_order.length = N) (hN : 0 < N)
    (hidx : t.current_player_index = 0) :
    ∀ k, 1 ≤ k → k ≤ N →
      (Game.next_turn_info^[k] t).initiative_order = t.initiative_order ∧
      (Game.next_turn_info^[k] t).current_player_index = k % N ∧
      (Game.next_turn_info^[k] t).round_number
        = t.round_number + (if k = N then 1 else 0) := by
  have hstep : ∀ u : TurnInfo, u.initiative_order ≠ [] →
      (Game.next_turn_info u).initiative_order = u.initiative_order ∧
      (Game.next_turn_info u).current_player_index
        = (u.current_player_index + 1) % u.initiative_order.length ∧
      (Game.next_turn_info u).round_number = u.round_number +
        (if (u.current_player_index + 1) % u.initiative_order.length = 0
         then 1 else 0) := by
    intro u hu
    unfold Game.next_turn_info
    rw [if_neg (by simpa using hu)]
    simp only []
    by_cases h : (u.current_player_index + 1) % u.initiative_order.length = 0
    · simp only [h, if_pos rfl]
      cases hget : u.initiative_order[0]? <;> simp [hget, h]
    · simp only [h, if_neg h]
      cases hget :
          u.initiative_order[(u.current_player_index + 1) % u.initiative_order.length]? <;>
        simp [hget, h]
  have main : ∀ k, k ≤ N →
      (Game.next_turn_info^[k] t).initiative_order = t.initiative_order ∧
      (Game.next_turn_info^[k] t).current_player_index = k % N ∧
      (Game.next_turn_info^[k] t).round_number
        = t.round_number + (if k = N ∧ 0 < k then 1 else 0) := by
    intro k
    induction k with
    | zero =>
      intro _
      refine ⟨rfl, ?_, ?_⟩
      · simpa using hidx
      · simp
    | succ m ih =>
      intro hm
      obtain ⟨horder, hidx2, hround⟩ := ih (Nat.le_of_succ_le hm)
      have hmN : m < N := Nat.lt_of_succ_le hm
      have hne : (Game.next_turn_info^[m] t).initiative_order ≠ [] := by
        rw [horder]
        intro hnil
        rw [hnil] at hlen
        simp at hlen
        omega
      obtain ⟨ho2, hi2, hr2⟩ := hstep _ hne
      rw [Function.iterate_succ_apply']
      refine ⟨by rw [ho2, horder], ?_, ?_⟩
      · rw [hi2, hidx2, horder, hlen, Nat.mod_eq_of_lt hmN]
      · have hno : ¬(m = N ∧ 0 < m) := fun h => absurd h.1 (by omega)
        rw [hr2, hidx2, horder, hlen, hround, if_neg hno, Nat.mod_eq_of_lt hmN]
        by_cases hcase : m + 1 = N
        · have hz : (m + 1) % N = 0 := by rw [hcase]; exact Nat.mod_self N
          rw [if_pos hz, if_pos ⟨hcase, by omega⟩]
        · have hlt : m + 1 < N := by omega
          have hz : ¬((m + 1) % N = 0) := by rw [Nat.mod_eq_of_lt hlt]; omega
          rw [if_neg hz, if_neg (fun h => hcase h.1)]
  intro k hk1 hk2
  obtain ⟨h1, h2, h3⟩ := main k hk2
  refine ⟨h1, h2, ?_⟩
  rw [h3]
  by_cases hcase : k = N
  · simp [hcase]
    omega
  · simp [hcase]

/-- Witness for C8: the two-entry initiative order advanced twice returns the
cursor to 0 and increments the round number exactly once. -/
theorem advance_turn_wraps_once_witness :
    (Game.next_turn_info^[2] twoPlayerTurnInfo).initiative_order
        = twoPlayerTurnInfo.initiative_order ∧
    (Game.next_turn_info^[2] twoPlayerTurnInfo).current_player_index = 2 % 2 ∧
    (Game.next_turn_info^[2] twoPlayerTurnInfo).round_number
        = twoPlayerTurnInfo.round_number + (if 2 = 2 then 1 else 0) :=
  advance_turn_wraps_once twoPlayerTurnInfo 2 (by decide) (by decide) (by decide)
    2 (by decide) (by decide)

/-- Helper: a lookup ignores removed bindings of a different key. -/
theorem alookup_filter_ne {α : Type} (u v : String) (h : u ≠ v) (l : List (String × α)) :
    alookup u (l.filter (fun p => p.1 ≠ v)) = alookup u l := by
  induction l with
  | nil => rfl
  | cons p rest ih =>
    obtain ⟨a, c⟩ := p
    by_cases hp : a = v <;> by_cases hg : a = u <;>
      simp_all [alookup, List.filter_cons]

/-- Helper: after removing a key, looking it up yields nothing. -/
theorem alookup_filter_self {α : Type} (v : String) (l : List (String × α)) :
    alookup v (l.filter (fun p => p.1 ≠ v)) = none := by
  induction l with
  | nil => rfl
  | cons p rest ih =>
    obtain ⟨a, c⟩ := p
    by_cases hp : a = v <;> simp_all [alookup, List.filter_cons]

/-- Helper: a lookup into a list headed by its own key. -/
theorem alookup_cons_self {α : Type} (k : String) (v : α) (l : List (String × α)) :
    alookup k ((k, v) :: l) = some v := by
  simp [alookup]

/-- Helper: a lookup skips a head with a different key. -/
theorem alookup_cons_ne {α : Type} {k a : String} (h : a ≠ k) (v : α)
    (l : List (String × α)) : alookup k ((a, v) :: l) = alookup k l := by
  simp [alookup, h]

/-- Helper: updating the value under one key changes only that key's
lookup. -/
theorem alookup_update {α : Type} (g gid : String) (b2 : α) (l : List (String × α)) :
    alookup g (l.map (fun p => if p.1 = gid then (p.1, b2) else p))
      = if g = gid then (alookup g l).map (fun _ => b2) else alookup g l := by
  induction l with
  | nil => by_cases hp : g = gid <;> simp [alookup, hp]
  | cons p rest ih =>
    obtain ⟨a, c⟩ := p
    rw [List.map_cons]
    by_cases hp : a = gid
    · subst hp
      rw [if_pos rfl]
      by_cases hgg : g = a
      · subst hgg
        rw [if_pos rfl, alookup_cons_self, alookup_cons_self]
        rfl
      · have hgg2 : a ≠ g := fun e => hgg e.symm
        rw [alookup_cons_ne hgg2, ih, if_neg hgg, if_neg hgg, alookup_cons_ne hgg2]
    · rw [if_neg hp]
      by_cases hg : a = g
      · subst hg
        rw [alookup_cons_self, if_neg hp, alookup_cons_self]
      · rw [alookup_cons_ne hg, ih]
        by_cases hgg : g = gid
        · rw [if_pos hgg, if_pos hgg, alookup_cons_ne hg]
        · rw [if_neg hgg, if_neg hgg, alookup_cons_ne hg]

/-- Helper: in a list with distinct keys, entries are determined by their
key. -/
theorem nodup_key_unique {α : Type} {l : List (String × α)}
    (h : (l.map Prod.fst).Nodup) {p q : String × α}
    (hp : p ∈ l) (hq : q ∈ l) (hk : p.1 = q.1) : p = q := by
  induction l with
  | nil => cases hp
  | cons x rest ih =>
    rw [List.map_cons, List.nodup_cons] at h
    rcases List.mem_cons.mp hp with hp1 | hp1 <;>
      rcases List.mem_cons.mp hq with hq1 | hq1
    · rw [hp1, hq1]
    · exfalso
      apply h.1
      rw [hp1] at hk
      rw [hk]
      exact List.mem_map.mpr ⟨q, hq1, rfl⟩
    · exfalso
      apply h.1
      rw [hq1] at hk
      rw [← hk]
      exact List.mem_map.mpr ⟨p, hp1, rfl⟩
    · exact ih h.2 hp1 hq1

/-- Helper: the send loop delivers to exactly the non-excluded live handles
and marks exactly the non-excluded dead handles, in order. -/
theorem broadcastScan_eq (ex : Option String) (l : List (String × WSHandle)) :
    broadcastScan ex l
      = ((l.filter (fun p => !exclSkip ex p.1 && p.2.alive)).map Prod.fst,
         (l.filter (fun p => !exclSkip ex p.1 && !p.2.alive)).map Prod.fst) := by
  induction l with
  | nil => rfl
  | cons p rest ih =>
    obtain ⟨uid, h⟩ := p
    by_cases hs : exclSkip ex uid = true
    · simp [broadcastScan, List.filter_cons, hs, ih]
    · by_cases ha : h.alive = true <;>
        simp [broadcastScan, List.filter_cons, hs, ha, ih,
          Bool.not_eq_true _ ▸ hs]

/-- Helper: effect of one disconnect on the registry, for a user whose
reverse-map entry points at a present game bucket. -/
theorem disconnect_spec (m : ConnectionManager) (uid gid : String)
    (b : List (String × WSHandle))
    (hu : alookup uid m.user_games = some gid)
    (hb : alookup gid m.active_connections = some b) :
    (m.disconnect uid).user_games = m.user_games.filter (fun p => p.1 ≠ uid) ∧
    alookup gid (m.disconnect uid).active_connections
      = (if (b.filter (fun p => p.1 ≠ uid)).isEmpty then none
         else some (b.filter (fun p => p.1 ≠ uid))) ∧
    (∀ g, g ≠ gid → alookup g (m.disconnect uid).active_connections
      = alookup g m.active_connections) := by
  have hd : m.disconnect uid =
      { active_connections :=
          if (b.filter (fun p => p.1 ≠ uid)).isEmpty then
            m.active_connections.filter (fun p => p.1 ≠ gid)
          else
            m.active_connections.map
              (fun p => if p.1 = gid then (p.1, b.filter (fun q => q.1 ≠ uid)) else p)
        user_games := m.user_games.filter (fun p => p.1 ≠ uid) } := by
    unfold ConnectionManager.disconnect
    rw [hu]
    simp only []
    rw [hb]
  rw [hd]
  by_cases hemp : (b.filter (fun p => p.1 ≠ uid)).isEmpty
  · refine ⟨rfl, ?_, ?_⟩
    · simp only [if_pos hemp]
      exact alookup_filter_self gid m.active_connections
    · intro g hg
      simp only [if_pos hemp]
      exact alookup_filter_ne g gid hg m.active_connections
  · refine ⟨rfl, ?_, ?_⟩
    · simp only [if_neg hemp]
      rw [alookup_update, if_pos rfl, hb]
      rfl
    · intro g hg
      simp only [if_neg hemp]
      rw [alookup_update, if_neg hg]

/-- Helper: effect of one disconnect when the user's game has no bucket:
only the reverse map changes. -/
theorem disconnect_nogame (m : ConnectionManager) (uid gid : String)
    (hu : alookup uid m.user_games = some gid)
    (hb : alookup gid m.active_connections = none) :
    (m.disconnect uid).active_connections = m.active_connections ∧
    (m.disconnect uid).user_games = m.user_games.filter (fun p => p.1 ≠ uid) := by
  unfold ConnectionManager.disconnect
  rw [hu]
  simp only []
  rw [hb]
  exact ⟨rfl, trivial⟩

/-- Helper: folding disconnect over users of a game whose bucket is absent
leaves every bucket untouched. -/
theorem foldl_disconnect_none (gid : String) :
    ∀ (ds : List String) (m : ConnectionManager),
      ds.Nodup →
      (∀ u ∈ ds, alookup u m.user_games = some gid) →
      alookup gid m.active_connections = none →
      (ds.foldl ConnectionManager.disconnect m).active_connections
        = m.active_connections := by
  intro ds
  induction ds with
  | nil => intro m _ _ _; rfl
  | cons d rest ih =>
    intro m hnd hug hnil
    obtain ⟨hac, hugf⟩ := disconnect_nogame m d gid (hug d (by simp)) hnil
    rw [List.foldl_cons, ih (m.disconnect d) (List.nodup_cons.mp hnd).2 ?_ ?_, hac]
    · intro u hu
      rw [hugf,
        alookup_filter_ne u d (fun e => (List.nodup_cons.mp hnd).1 (e ▸ hu))]
      exact hug u (List.mem_cons_of_mem d hu)
    · rw [hac]
      exact hnil

/-- Helper: folding disconnect over a duplicate-free list of users of game
`gid` removes exactly those users from gid's bucket (dropping the bucket if
it empties) and leaves every other bucket untouched. -/
theorem foldl_disconnect_bucket (gid : String) :
    ∀ (ds : List String) (m : ConnectionManager) (b : List (String × WSHandle)),
      ds.Nodup →
      (∀ u ∈ ds, alookup u m.user_games = some gid) →
      alookup gid m.active_connections = some b →
      (∀ g, g ≠ gid →
        alookup g (ds.foldl ConnectionManager.disconnect m).active_connections
          = alookup g m.active_connections) ∧
      alookup gid (ds.foldl ConnectionManager.disconnect m).active_connections
        = (if ds.isEmpty then some b
           else if (b.filter (fun p => p.1 ∉ ds)).isEmpty then none
           else some (b.filter (fun p => p.1 ∉ ds))) := by
  intro ds
  induction ds with
  | nil => intro m b _ _ hb; exact ⟨fun g _ => rfl, by simpa using hb⟩
  | cons d rest ih =>
    intro m b hnd hug hb
    obtain ⟨hug1, hacg, hacpres⟩ :=
      disconnect_spec m d gid b (hug d (by simp)) hb
    have hrest_ug : ∀ u ∈ rest, alookup u (m.disconnect d).user_games = some gid := by
      intro u hu
      rw [hug1,
        alookup_filter_ne u d (fun e => (List.nodup_cons.mp hnd).1 (e ▸ hu))]
      exact hug u (List.mem_cons_of_mem d hu)
    rw [List.foldl_cons]
    by_cases hemp : (b.filter (fun p => p.1 ≠ d)).isEmpty
    · rw [if_pos hemp] at hacg
      have hrest := foldl_disconnect_none gid rest (m.disconnect d)
        (List.nodup_cons.mp hnd).2 hrest_ug hacg
      have hbf : (b.filter (fun p => p.1 ∉ d :: rest)).isEmpty := by
        rw [List.isEmpty_iff, List.filter_eq_nil_iff]
        rw [List.isEmpty_iff, List.filter_eq_nil_iff] at hemp
        intro p hp
        have hpd := hemp p hp
        simp only [decide_eq_true_eq] at hpd ⊢
        push_neg at hpd
        simp [hpd]
      refine ⟨?_, ?_⟩
      · intro g hg
        rw [hrest]
        exact hacpres g hg
      · rw [hrest, hacg]
        simp only [List.isEmpty_cons, Bool.false_eq_true, if_false]
        rw [if_pos hbf]
    · rw [if_neg hemp] at hacg
      obtain ⟨ihpres, ihgid⟩ := ih (m.disconnect d) (b.filter (fun p => p.1 ≠ d))
        (List.nodup_cons.mp hnd).2 hrest_ug hacg
      have hff : (b.filter (fun p => p.1 ≠ d)).filter (fun p => p.1 ∉ rest)
          = b.filter (fun p => p.1 ∉ d :: rest) := by
        rw [List.filter_filter]
        apply List.filter_congr
        intro p _
        by_cases h1 : p.1 = d <;> by_cases h2 : p.1 ∈ rest <;> simp [h1, h2]
      refine ⟨?_, ?_⟩
      · intro g hg
        rw [ihpres g hg]
        exact hacpres g hg
      · cases rest with
        | nil =>
          rw [ihgid]
          have hcongr : b.filter (fun p => p.1 ∉ ([d] : List String))
              = b.filter (fun p => p.1 ≠ d) := by
            apply List.filter_congr
            intro p _
            simp
          simp only [List.isEmpty_nil, eq_self_iff_true, if_true, List.isEmpty_cons,
            Bool.false_eq_true, if_false, hcongr]
          rw [if_neg hemp]
        | cons r rs =>
          rw [ihgid, hff]
          simp only [List.isEmpty_cons, Bool.false_eq_true, if_false]

/-- C9: broadcasting to a game delivers the payload to every live handle
except the optionally excluded participant (in registration order, computed
over the full bucket, so a send failure never aborts the broadcast); exactly
the handles whose send failed — the non-excluded dead ones — are then removed
from the game's bucket (the bucket is dropped when nothing remains), and
every other game's bucket is untouched. -/
theorem broadcast_partial_failure (m : ConnectionManager) (gid : String)
    (ex : Option String) (b : List (String × WSHandle))
    (hb : alookup gid m.active_connections = some b)
    (hbne : b ≠ [])
    (hnd : (b.map Prod.fst).Nodup)
    (hcons : ∀ p ∈ b, alookup p.1 m.user_games = some gid) :
    (m.broadcast_to_game gid ex).1
        = (b.filter (fun p => !exclSkip ex p.1 && p.2.alive)).map Prod.fst ∧
    (∀ g, g ≠ gid →
      alookup g (m.broadcast_to_game gid ex).2.active_connections
        = alookup g m.active_connections) ∧
    alookup gid (m.broadcast_to_game gid ex).2.active_connections
      = (if (b.filter (fun p => exclSkip ex p.1 || p.2.alive)).isEmpty then none
         else some (b.filter (fun p => exclSkip ex p.1 || p.2.alive))) := by
  have hscan := broadcastScan_eq ex b
  set dead := (b.filter (fun p => !exclSkip ex p.1 && !p.2.alive)).map Prod.fst
    with hdead
  have hbc : m.broadcast_to_game gid ex
      = ((b.filter (fun p => !exclSkip ex p.1 && p.2.alive)).map Prod.fst,
         dead.foldl ConnectionManager.disconnect m) := by
    unfold ConnectionManager.broadcast_to_game
    rw [hb]
    simp only []
    rw [hscan]
  rw [hbc]
  have hdnd : dead.Nodup := by
    rw [hdead]
    exact List.Nodup.sublist (List.Sublist.map Prod.fst (List.filter_sublist _)) hnd
  have hdug : ∀ u ∈ dead, alookup u m.user_games = some gid := by
    intro u hu
    rw [hdead] at hu
    obtain ⟨q, hq, rfl⟩ := List.mem_map.mp hu
    exact hcons q (List.mem_filter.mp hq).1
  obtain ⟨hpres, hgid⟩ := foldl_disconnect_bucket gid dead m b hdnd hdug hb
  have hfc : b.filter (fun p => p.1 ∉ dead)
      = b.filter (fun p => exclSkip ex p.1 || p.2.alive) := by
    apply List.filter_congr
    intro p hp
    by_cases hmem : p.1 ∈ dead
    · have hmem2 := hmem
      rw [hdead] at hmem2
      obtain ⟨q, hq, hq1⟩ := List.mem_map.mp hmem2
      obtain ⟨hqb, hqcond⟩ := List.mem_filter.mp hq
      have hqp : q = p := nodup_key_unique hnd hqb hp hq1
      subst hqp
      rw [Bool.and_eq_true] at hqcond
      obtain ⟨hex, hal⟩ := hqcond
      have h1 : exclSkip ex q.1 = false := by simpa using hex
      have h2 : q.2.alive = false := by simpa using hal
      simp [hmem, h1, h2]
    · cases hex : exclSkip ex p.1 with
      | true => simp [hmem, hex]
      | false =>
        cases hal : p.2.alive with
        | true => simp [hmem, hex, hal]
        | false =>
          exfalso
          apply hmem
          rw [hdead]
          exact List.mem_map.mpr
            ⟨p, List.mem_filter.mpr ⟨hp, by simp [hex, hal]⟩, rfl⟩
  refine ⟨rfl, hpres, ?_⟩
  rw [hgid]
  by_cases hdeadnil : dead.isEmpty = true
  · have hb2 : b.filter (fun p => exclSkip ex p.1 || p.2.alive) = b := by
      rw [← hfc, List.isEmpty_iff.mp hdeadnil]
      apply List.filter_eq_self.mpr
      intro a _
      simp
    rw [if_pos hdeadnil, hb2, if_neg (fun h => hbne (List.isEmpty_iff.mp h))]
  · rw [if_neg hdeadnil, hfc]

/-- Witness for C9: the concrete registry with alice and carol live and bob
dead — the delivery list and the updated g1 bucket match the theorem. -/
theorem broadcast_partial_failure_witness :
    (threeConnManager.broadcast_to_game ("g1") none).1
        = (threeBucket.filter (fun p => !exclSkip none p.1 && p.2.alive)).map Prod.fst ∧
    alookup ("g1") (threeConnManager.broadcast_to_game ("g1") none).2.active_connections
      = (if (threeBucket.filter (fun p => exclSkip none p.1 || p.2.alive)).isEmpty
         then none
         else some (threeBucket.filter (fun p => exclSkip none p.1 || p.2.alive))) :=
  ⟨(broadcast_partial_failure threeConnManager ("g1") none threeBucket
      (by decide) (by decide) (by decide) (by decide)).1,
   (broadcast_partial_failure threeConnManager ("g1") none threeBucket
      (by decide) (by decide) (by decide) (by decide)).2.2⟩

/-- C2: from the point after the pending-check read, when the read returned a
check the handler broadcasts the dice_roll followed by a dice_check_result
whose final_total is the roll's total plus the stored modifier and whose
success flag is set exactly when the final total reaches the stored dc, and
clears the pending check; when the read returned nothing the roll is
broadcast as a single ordinary dice_roll, with no resolution and no clear. -/
theorem dice_roll_resolution (σ : Nat → Nat) (uid uname ntext purpose : String)
    (c : PendingCheck) (r : DiceResult)
    (hne : String.mk (pyStrip ntext.toList) ≠ (""))
    (hok : roll_from_ntext σ (String.mk (pyStrip ntext.toList)) false false [] false 0
      = Except.ok r) :
    (handleDiceRoll σ (some c) uid uname ntext purpose).cleared = true ∧
    (handleDiceRoll σ (some c) uid uname ntext purpose).broadcasts =
      [OutMsg.diceRollMsg (String.mk (pyStrip ntext.toList))
         { r with ntext := String.mk (pyStrip ntext.toList) } uid uname
         (("Проверка ") ++ c.skill_display) true,
       OutMsg.diceCheckResultMsg r.total c.modifier (r.total + c.modifier) c.dc
         (decide (c.dc ≤ r.total + c.modifier)) uname c.skill_display
         c.original_action] ∧
    ((decide (c.dc ≤ r.total + c.modifier)) = true ↔ c.dc ≤ r.total + c.modifier) ∧
    (handleDiceRoll σ none uid uname ntext purpose).broadcasts =
      [OutMsg.diceRollMsg (String.mk (pyStrip ntext.toList))
         { r with ntext := String.mk (pyStrip ntext.toList) } uid uname purpose false] ∧
    (handleDiceRoll σ none uid uname ntext purpose).cleared = false := by
  have hsel : (if String.mk (pyStrip ntext.toList) = ("1d20")
      then roll_from_ntext σ ("1d20") false false [] false 0
      else roll_from_ntext σ (String.mk (pyStrip ntext.toList)) false false [] false 0)
      = Except.ok r := by
    by_cases hn : String.mk (pyStrip ntext.toList) = ("1d20")
    · rw [if_pos hn, ← hn]
      exact hok
    · rw [if_neg hn]
      exact hok
  have hsome : handleDiceRoll σ (some c) uid uname ntext purpose
      = { broadcasts :=
            [OutMsg.diceRollMsg (String.mk (pyStrip ntext.toList))
               { r with ntext := String.mk (pyStrip ntext.toList) } uid uname
               (("Проверка ") ++ c.skill_display) true,
             OutMsg.diceCheckResultMsg r.total c.modifier (r.total + c.modifier) c.dc
               (decide (c.dc ≤ r.total + c.modifier)) uname c.skill_display
               c.original_action]
          to_sender := []
          cleared := true } := by
    unfold handleDiceRoll
    simp only []
    rw [if_neg hne, hsel]
    rfl
  have hnone : handleDiceRoll σ none uid uname ntext purpose
      = { broadcasts :=
            [OutMsg.diceRollMsg (String.mk (pyStrip ntext.toList))
               { r with ntext := String.mk (pyStrip ntext.toList) } uid uname
               purpose false]
          to_sender := []
          cleared := false } := by
    unfold handleDiceRoll
    simp only []
    rw [if_neg hne, hok]
  rw [hsome, hnone]
  exact ⟨rfl, rfl, decide_eq_true_iff, rfl, rfl⟩

/-- Witness for C2, the spec's end-to-end scenario: Lyra's stored stealth
check (DC 15, table modifier +5) resolved by a raw 1d20 roll of 12 — final
total 17, success — and the same roll without a pending check broadcast as an
ordinary roll. -/
theorem dice_roll_resolution_witness :
    (handleDiceRoll (fun _ => 12) (some lyraStealthCheck) ("u1") ("Lyra") ("1d20")
        ("")).cleared = true ∧
    (handleDiceRoll (fun _ => 12) (some lyraStealthCheck) ("u1") ("Lyra") ("1d20")
        ("")).broadcasts =
      [OutMsg.diceRollMsg (String.mk (pyStrip ("1d20").toList))
         { rollTwelve with ntext := String.mk (pyStrip ("1d20").toList) } ("u1") ("Lyra")
         (("Проверка ") ++ lyraStealthCheck.skill_display) true,
       OutMsg.diceCheckResultMsg rollTwelve.total lyraStealthCheck.modifier
         (rollTwelve.total + lyraStealthCheck.modifier) lyraStealthCheck.dc
         (decide (lyraStealthCheck.dc ≤ rollTwelve.total + lyraStealthCheck.modifier))
         ("Lyra") lyraStealthCheck.skill_display lyraStealthCheck.original_action] ∧
    ((decide (lyraStealthCheck.dc ≤ rollTwelve.total + lyraStealthCheck.modifier)) = true
      ↔ lyraStealthCheck.dc ≤ rollTwelve.total + lyraStealthCheck.modifier) ∧
    (handleDiceRoll (fun _ => 12) none ("u1") ("Lyra") ("1d20") ("")).broadcasts =
      [OutMsg.diceRollMsg (String.mk (pyStrip ("1d20").toList))
         { rollTwelve with ntext := String.mk (pyStrip ("1d20").toList) } ("u1") ("Lyra")
         ("") false] ∧
    (handleDiceRoll (fun _ => 12) none ("u1") ("Lyra") ("1d20") ("")).cleared = false :=
  dice_roll_resolution (fun _ => 12) ("u1") ("Lyra") ("1d20") ("") lyraStealthCheck
    rollTwelve (by decide) (by rfl)

/-- C10: with a pending check present and submitted notation 1d20, the die is
rolled as a plain 1d20 — the stored advantage/disadvantage flags are not
passed to the dice engine, so the handler output is identical for any values
of those flags, and the broadcast roll is one single stream draw (never the
max or min of two); the earlier roll_request stage always stores dice_ntext
1d20, the flags changing only the dice_instruction wording. -/
theorem pending_flags_do_not_affect_roll (σ : Nat → Nat)
    (uid uname purpose : String) (c : PendingCheck) (a1 d1 a2 d2 : Bool) :
    handleDiceRoll σ (some { c with advantage := a1, disadvantage := d1 })
        uid uname ("1d20") purpose
      = handleDiceRoll σ (some { c with advantage := a2, disadvantage := d2 })
        uid uname ("1d20") purpose ∧
    (∃ r, roll_from_ntext σ ("1d20") false false [] false 0 = Except.ok r ∧
      r.individual_rolls = [σ 0] ∧ r.total = (σ 0 : Int) ∧
      (handleDiceRoll σ (some c) uid uname ("1d20") purpose).broadcasts.head?
        = some (OutMsg.diceRollMsg ("1d20") { r with ntext := ("1d20") } uid uname
            (("Проверка ") ++ c.skill_display) true)) ∧
    ∀ (da : DiceAnalysis) (p a : String),
      (requestDiceRollCheck da p a).dice_ntext = ("1d20") := by
  have hroll : roll_from_ntext σ ("1d20") false false [] false 0
      = Except.ok
          { ntext := ("1d20")
            individual_rolls := [σ 0]
            modifiers := []
            total := ((σ 0 : Int) + 0) + 0
            is_critical := (σ 0 == 20 || σ 0 == 1)
            is_advantage := false
            is_disadvantage := false } := rfl
  refine ⟨rfl, ⟨_, hroll, rfl, by simp, ?_⟩, fun da p a => rfl⟩
  rfl

end DndGame
